import Mathlib

/-!
Verification of the smart-lamp controller firmware.

The development shallowly embeds the lamp/timer core of the firmware:
the module-level globals become a `DeviceState` record, the HTTP request
handlers (`handleOn`, `handleOff`, `handleTimeout`, `handleStatus` and the
`/api` variants) become state transformers paired with the response they
send, and one iteration of `loop()` becomes a function from a state and a
clock reading to the successor state together with a flag telling whether
the safety restart fired.  The two firmware variants (the recommended
`mcu_smartlmp.ino` and the optimized variant) share all handler logic; the
optimized variant differs only in running the safety-reboot check on a
30-minute sub-cadence, so both loop bodies are embedded (`loopTick` and
`loopTickOpt`).

Machine arithmetic: `unsigned long` and `long` are 32 bits on the ESP8266
target.  Unsigned subtraction such as `millis() - timeoutStart` is modelled
by `sub32` (wrapping mod 2^32), the cast `(long)x` by `toInt32`, and the
wrap of a signed 32-bit arithmetic result by `wrap32`.  The monotonic clock
`millis()` is passed in explicitly as `now`; one tick uses a single clock
reading (in the recommended loop the few reads within one pass of `loop()`
are of the same monotonic counter).
-/

namespace SmartLamp

/-- Word size of `unsigned long` on the target (32 bits). -/
def W : Nat := 4294967296

/-- Half of the word size: the boundary between nonnegative and negative
values of a 32-bit `long`. -/
def HALF : Nat := 2147483648

/-- Wrapping 32-bit subtraction: the value of `a - b` computed on
`unsigned long` operands. -/
def sub32 (a b : Nat) : Nat := (a + (W - b % W)) % W

/-- Reinterpretation of an `unsigned long` value as a signed `long`:
the value of the cast `(long)n`. -/
def toInt32 (n : Nat) : Int :=
  if n % W < HALF then ((n % W : Nat) : Int) else ((n % W : Nat) : Int) - (W : Int)

/-- Two's-complement wrap of a signed 32-bit arithmetic result (the
behaviour of the target when a `long` subtraction overflows). -/
def wrap32 (i : Int) : Int :=
  let m := i % (W : Int)
  if m < (HALF : Int) then m else m - (W : Int)

/-- Safety reboot threshold `SAFETY_REBOOT_INTERVAL = 12UL*60UL*60UL*1000UL`
milliseconds (12 hours). -/
def SAFETY_REBOOT_INTERVAL : Nat := 12 * 60 * 60 * 1000

/-- Sub-cadence `SAFETY_CHECK_INTERVAL = 30UL*60UL*1000UL` of the optimized
variant's safety check (30 minutes). -/
def SAFETY_CHECK_INTERVAL : Nat := 30 * 60 * 1000

/-- Module-level mutable state of the firmware.  `lampOn` is the live relay
output viewed through the active-low convention (`isLampOn()`);
`relayState` is the legacy commanded-state cache; `currentTimeout`
(minutes), `timeoutActive` and `timeoutStart` (ms) are the timer globals;
`moduleStartTime` is the boot timestamp; `lastSafetyCheck` is the optimized
variant's sub-cadence marker (unused by the recommended loop). -/
structure DeviceState where
  lampOn : Bool
  relayState : Bool
  currentTimeout : Nat
  timeoutActive : Bool
  timeoutStart : Nat
  moduleStartTime : Nat
  lastSafetyCheck : Nat
deriving DecidableEq

/-- State right after `setup()` at boot time `t0`: relay driven HIGH (lamp
off), timer globals zeroed/inactive, `moduleStartTime = millis()`. -/
def initialState (t0 : Nat) : DeviceState :=
  { lampOn := false
    relayState := false
    currentTimeout := 0
    timeoutActive := false
    timeoutStart := 0
    moduleStartTime := t0
    lastSafetyCheck := 0 }

/-- Status record abstracting the JSON object built by `buildStatusJson`
(fields `on`, `timeoutActive`, `remainingSeconds`; the JSON key `on` is a
reserved notation in this development and is embedded as `isOn`). -/
structure Status where
  isOn : Bool
  timeoutActive : Bool
  remainingSeconds : Nat
deriving DecidableEq

/-- Response sent by a handler: every mutating page handler sends a 302
redirect to `/`; the `/status` and `/api` handlers send the status JSON. -/
inductive HttpAction where
  | redirect : HttpAction
  | jsonBody : Status → HttpAction
deriving DecidableEq

/-- Remaining-time computation shared by both variants
(`calculateRemainingSeconds` in the optimized file; inlined in
`buildStatusJson` in `mcu_smartlmp.ino`, where it runs only under
`timeoutActive && on`, so the `!timeoutActive` early return is never the
taken branch there): `elapsed = millis() - timeoutStart` on `unsigned
long`, then `remainingMs = (long)(currentTimeout * 60000UL) - (long)elapsed`
on `long` (wrapping), clamped below at 0, divided by 1000. -/
def calculateRemainingSeconds (s : DeviceState) (now : Nat) : Nat :=
  if s.timeoutActive = false then 0
  else
    let elapsed := sub32 now s.timeoutStart
    let remainingMs := wrap32 (toInt32 ((s.currentTimeout * 60000) % W) - toInt32 elapsed)
    let clamped := if remainingMs < 0 then 0 else remainingMs
    (clamped / 1000).toNat

/-- Status built by `buildStatusJson`: `remainingSeconds` is computed only
when `timeoutActive && on`, otherwise reported as 0. -/
def statusOf (s : DeviceState) (now : Nat) : Status :=
  { isOn := s.lampOn
    timeoutActive := s.timeoutActive
    remainingSeconds :=
      if s.timeoutActive && s.lampOn then calculateRemainingSeconds s now else 0 }

/-- Handler `handleOn` of `mcu_smartlmp.ino`: `setLamp(true); relayState =
true;` then a redirect.  No timer global is written. -/
def handleOn (s : DeviceState) : DeviceState × HttpAction :=
  ({ s with lampOn := true, relayState := true }, HttpAction.redirect)

/-- Handler `handleOff` of `mcu_smartlmp.ino`: `setLamp(false); relayState =
false; timeoutActive = false; currentTimeout = 0;` then a redirect. -/
def handleOff (s : DeviceState) : DeviceState × HttpAction :=
  ({ s with lampOn := false, relayState := false,
            timeoutActive := false, currentTimeout := 0 },
   HttpAction.redirect)

/-- Helper `setLampWithState` of the optimized variant: drives the relay and
the legacy cache, and cancels the timer exactly when turning off. -/
def setLampWithState (s : DeviceState) (state : Bool) : DeviceState :=
  let s1 := { s with lampOn := state, relayState := state }
  if state then s1 else { s1 with timeoutActive := false, currentTimeout := 0 }

/-- Handler `handleOnApi`: same state effect as `handleOn`, but the response
is the status JSON of the new state. -/
def handleOnApi (s : DeviceState) (now : Nat) : DeviceState × HttpAction :=
  let s1 := { s with lampOn := true, relayState := true }
  (s1, HttpAction.jsonBody (statusOf s1 now))

/-- Handler `handleOffApi`: same state effect as `handleOff`, but the
response is the status JSON of the new state. -/
def handleOffApi (s : DeviceState) (now : Nat) : DeviceState × HttpAction :=
  let s1 := { s with lampOn := false, relayState := false,
                     timeoutActive := false, currentTimeout := 0 }
  (s1, HttpAction.jsonBody (statusOf s1 now))

/-- Handler `handleStatus`: reads the state, mutates nothing. -/
def handleStatus (s : DeviceState) (now : Nat) : DeviceState × HttpAction :=
  (s, HttpAction.jsonBody (statusOf s now))

/-- Digit test used by `atol` (the parser behind Arduino
`String::toInt()`). -/
def isDigitCh (c : Char) : Bool := decide ('0' ≤ c) && decide (c ≤ '9')

/-- Digit-accumulation loop of `atol`: consumes leading digits, stops at the
first non-digit. -/
def atolDigits : List Char → Nat → Nat
  | [], acc => acc
  | c :: cs, acc =>
      if isDigitCh c then atolDigits cs (acc * 10 + (c.toNat - 48)) else acc

/-- Semantics of `server.arg("minutes").toInt()`: Arduino `String::toInt`
calls the C library `atol`, which skips leading whitespace, accepts an
optional sign, reads leading digits and returns 0 when there are none
(overflow of the 32-bit `long` is not modelled; the claims use small
inputs). -/
def atol (cs : List Char) : Int :=
  let body := cs.dropWhile (fun c => c == ' ' || c == '\t' || c == '\n' || c == '\r')
  match body with
  | '-' :: rest => -(Int.ofNat (atolDigits rest 0))
  | '+' :: rest => Int.ofNat (atolDigits rest 0)
  | _ => Int.ofNat (atolDigits body 0)

/-- Clamp applied by `handleTimeout`: `if (minutes < 0) minutes = 0; if
(minutes > 720) minutes = 720;`. -/
def clampMinutes (m : Int) : Int := if m < 0 then 0 else if m > 720 then 720 else m

/-- Body of `handleTimeout` after the argument has been parsed to the
`long` value `m`: clamp into `[0,720]`; a positive result starts (or
restarts) the timer, first turning the lamp on when it is off; otherwise
the timer is disabled. -/
def handleTimeoutParsed (s : DeviceState) (m : Int) (now : Nat) : DeviceState :=
  let minutes := clampMinutes m
  if 0 < minutes ∧ minutes ≤ 720 then
    let s1 := if s.lampOn then s else { s with lampOn := true, relayState := true }
    { s1 with currentTimeout := minutes.toNat, timeoutActive := true, timeoutStart := now }
  else
    { s with timeoutActive := false, currentTimeout := 0 }

/-- Timer-disable branch of `handleTimeout` (the spec's `cancelTimer()`):
marks the timer inactive and zeroes the stored duration, leaving the relay
alone. -/
def cancelTimer (s : DeviceState) : DeviceState :=
  { s with timeoutActive := false, currentTimeout := 0 }

/-- Handler `handleTimeout`: when the `minutes` argument is absent
(`server.hasArg` false) the state is untouched; otherwise the argument
string is parsed with `atol` and processed by `handleTimeoutParsed`.  The
response is a redirect in every case. -/
def handleTimeout (s : DeviceState) (arg : Option (List Char)) (now : Nat) :
    DeviceState × HttpAction :=
  match arg with
  | none => (s, HttpAction.redirect)
  | some cs => (handleTimeoutParsed s (atol cs) now, HttpAction.redirect)

/-- Expiry check of `loop()`: `if (timeoutActive && lampOn && (millis() -
timeoutStart) >= (currentTimeout * 60000UL))` turn the lamp off, sync the
legacy cache, and mark the timer inactive. -/
def expiryStep (s : DeviceState) (now : Nat) : DeviceState :=
  if s.timeoutActive ∧ s.lampOn ∧ (s.currentTimeout * 60000) % W ≤ sub32 now s.timeoutStart then
    { s with lampOn := false, relayState := false, timeoutActive := false }
  else s

/-- Override-cancel check of `loop()`: `if (timeoutActive && !isLampOn())`
mark the timer inactive, touching nothing else. -/
def overrideStep (s : DeviceState) : DeviceState :=
  if s.timeoutActive ∧ s.lampOn = false then { s with timeoutActive := false } else s

/-- Safety-reboot condition shared by both variants: lamp currently off
(live read) and `millis() - moduleStartTime >= SAFETY_REBOOT_INTERVAL`. -/
def safetyCondition (s : DeviceState) (now : Nat) : Bool :=
  s.lampOn = false ∧ SAFETY_REBOOT_INTERVAL ≤ sub32 now s.moduleStartTime

/-- One pass of `loop()` in `mcu_smartlmp.ino`: expiry check, then
override-cancel check, then the safety-reboot check on every tick.  The
returned flag tells whether `ESP.restart()` was reached. -/
def loopTick (s : DeviceState) (now : Nat) : DeviceState × Bool :=
  let s1 := expiryStep s now
  let s2 := overrideStep s1
  (s2, safetyCondition s2 now)

/-- One pass of `loop()` in the optimized variant: identical expiry and
override-cancel checks, but the safety-reboot check runs only when
`currentMillis - lastSafetyCheck >= SAFETY_CHECK_INTERVAL`, at which point
`lastSafetyCheck` is refreshed. -/
def loopTickOpt (s : DeviceState) (now : Nat) : DeviceState × Bool :=
  let s1 := expiryStep s now
  let s2 := overrideStep s1
  if SAFETY_CHECK_INTERVAL ≤ sub32 now s2.lastSafetyCheck then
    let s3 := { s2 with lastSafetyCheck := now % W }
    (s3, safetyCondition s3 now)
  else
    (s2, false)

/-- Timer invariant of the data model: an active timer has a positive
stored duration. -/
def TimerInv (s : DeviceState) : Prop := s.timeoutActive = true → 0 < s.currentTimeout

instance (s : DeviceState) : Decidable (TimerInv s) := by
  unfold TimerInv
  infer_instance

/-- Remaining-seconds formula of the spec, on exact integers:
`max(0, duration*60000 - elapsed) / 1000`, floored to whole seconds. -/
def specRemainingSeconds (durationMinutes elapsed : Nat) : Nat :=
  (max 0 (((durationMinutes * 60000 : Nat) : Int) - (elapsed : Int))).toNat / 1000

/-- Transition table of the control loop as the spec states it: an active
timer with the lamp on and the budget elapsed turns the lamp off and
deactivates the timer; an active timer with the lamp off is deactivated
without touching the relay; every other combination is a no-op. -/
def specTickTable (s : DeviceState) (now : Nat) : DeviceState :=
  if s.timeoutActive ∧ s.lampOn ∧ s.currentTimeout * 60000 ≤ sub32 now s.timeoutStart then
    { s with lampOn := false, relayState := false, timeoutActive := false }
  else if s.timeoutActive ∧ s.lampOn = false then
    { s with timeoutActive := false }
  else s

end SmartLamp

namespace SmartLamp

/-! ### Helper lemmas -/

/-- Helper: a clamped argument of 0 routes `handleTimeout` to the
timer-disable branch. -/
theorem timeoutParsed_eq_cancel (s : DeviceState) (m : Int) (now : Nat)
    (h : clampMinutes m = 0) : handleTimeoutParsed s m now = cancelTimer s := by
  simp only [handleTimeoutParsed, cancelTimer, h]
  norm_num

/-- Helper: the clamp lands in `[0, 720]`. -/
theorem clampMinutes_bounds (m : Int) : 0 ≤ clampMinutes m ∧ clampMinutes m ≤ 720 := by
  simp only [clampMinutes]
  split_ifs <;> omega

/-! ### Claims -/

/-- C1: for every prior state, the turn-off operation (the `/off` and
`/api/off` handlers, and the optimized variant's `setLampWithState false`)
commands the relay OFF and unconditionally cancels any active timer, so an
immediately following `status()` reports `timerActive == false`. -/
theorem C1_turnOff_cancels_timer (s : DeviceState) (now : Nat) :
    (handleOff s).1.lampOn = false ∧
    (handleOff s).1.timeoutActive = false ∧
    (statusOf (handleOff s).1 now).timeoutActive = false ∧
    (handleOffApi s now).1 = (handleOff s).1 ∧
    setLampWithState s false = (handleOff s).1 :=
  ⟨rfl, rfl, rfl, rfl, rfl⟩

/-- C8: `turnOn` (the `/on` and `/api/on` handlers, and the optimized
variant's `setLampWithState true`) commands the relay ON and leaves every
timer field — active flag, duration and start timestamp — unchanged. -/
theorem C8_turnOn_preserves_timer (s : DeviceState) (now : Nat) :
    (handleOn s).1.lampOn = true ∧
    (handleOn s).1.timeoutActive = s.timeoutActive ∧
    (handleOn s).1.currentTimeout = s.currentTimeout ∧
    (handleOn s).1.timeoutStart = s.timeoutStart ∧
    (handleOnApi s now).1 = (handleOn s).1 ∧
    setLampWithState s true = (handleOn s).1 :=
  ⟨rfl, rfl, rfl, rfl, rfl, rfl⟩

/-- C7: a `/timeout` request whose post-clamp minutes value is 0 is
equivalent to `cancelTimer`: the timer becomes inactive and the lamp/relay
state is left unchanged. -/
theorem C7_startTimer_zero_is_cancel (s : DeviceState) (now : Nat) (m : Int)
    (h : clampMinutes m = 0) :
    handleTimeoutParsed s m now = cancelTimer s ∧
    (cancelTimer s).timeoutActive = false ∧
    (cancelTimer s).lampOn = s.lampOn ∧
    (cancelTimer s).relayState = s.relayState :=
  ⟨timeoutParsed_eq_cancel s m now h, rfl, rfl, rfl⟩

/-- C7 witness: the theorem applied to the boot state with minutes 0. -/
theorem C7_startTimer_zero_is_cancel_witness :
    handleTimeoutParsed (initialState 0) 0 5 = cancelTimer (initialState 0) :=
  (C7_startTimer_zero_is_cancel (initialState 0) 5 0 (by decide)).1

/-- C6: every integer `minutes` argument on `/timeout` is clamped into
`[0, 720]` and never rejected (the response is always the redirect); a
post-clamp value of at least 1 starts the timer with that duration and the
current clock reading as start, turning the lamp on if it was off. -/
theorem C6_timeout_clamp_and_start (s : DeviceState) (now : Nat) (m : Int)
    (cs : List Char) :
    0 ≤ clampMinutes m ∧ clampMinutes m ≤ 720 ∧
    (handleTimeout s (some cs) now).2 = HttpAction.redirect ∧
    (1 ≤ clampMinutes m →
      (handleTimeoutParsed s m now).timeoutActive = true ∧
      (handleTimeoutParsed s m now).currentTimeout = (clampMinutes m).toNat ∧
      (handleTimeoutParsed s m now).timeoutStart = now ∧
      (handleTimeoutParsed s m now).lampOn = true ∧
      (s.lampOn = false → (handleTimeoutParsed s m now).relayState = true)) := by
  obtain ⟨h0, h720⟩ := clampMinutes_bounds m
  refine ⟨h0, h720, rfl, fun h1 => ?_⟩
  have hc : 0 < clampMinutes m ∧ clampMinutes m ≤ 720 := ⟨by omega, h720⟩
  simp only [handleTimeoutParsed, if_pos hc]
  cases hl : s.lampOn <;> simp [hl]

/-- C6 witness: the theorem applied with the out-of-range argument 1000 on
the boot state, which clamps to 720 and starts the timer. -/
theorem C6_timeout_clamp_and_start_witness :
    (handleTimeoutParsed (initialState 0) 1000 7).timeoutActive = true ∧
    (handleTimeoutParsed (initialState 0) 1000 7).currentTimeout = (clampMinutes 1000).toNat := by
  have h := (C6_timeout_clamp_and_start (initialState 0) 7 1000 []).2.2.2 (by decide)
  exact ⟨h.1, h.2.1⟩

/-- C10: a `/timeout` request with post-clamp minutes `N ≥ 1` arriving while
a timer is already active and the lamp is on replaces the running timer:
the duration becomes `N`, the countdown restarts at the current clock
reading, and the lamp/relay state is untouched. -/
theorem C10_timeout_replaces_running_timer (s : DeviceState) (now : Nat) (m : Int)
    (_hact : s.timeoutActive = true) (hon : s.lampOn = true)
    (hm : 1 ≤ clampMinutes m) :
    handleTimeoutParsed s m now =
      { s with currentTimeout := (clampMinutes m).toNat,
               timeoutActive := true, timeoutStart := now } := by
  obtain ⟨h0, h720⟩ := clampMinutes_bounds m
  have hc : 0 < clampMinutes m ∧ clampMinutes m ≤ 720 := ⟨by omega, h720⟩
  simp only [handleTimeoutParsed, if_pos hc, hon]
  simp [hon]

/-- C10 witness: the theorem applied to a state running a 5-minute timer,
replaced by a 30-minute timer at clock reading 90000. -/
theorem C10_timeout_replaces_running_timer_witness :
    handleTimeoutParsed
      { lampOn := true, relayState := true, currentTimeout := 5,
        timeoutActive := true, timeoutStart := 0, moduleStartTime := 0,
        lastSafetyCheck := 0 } 30 90000 =
      { lampOn := true, relayState := true, currentTimeout := (clampMinutes 30).toNat,
        timeoutActive := true, timeoutStart := 90000, moduleStartTime := 0,
        lastSafetyCheck := 0 } :=
  C10_timeout_replaces_running_timer _ 90000 30 rfl rfl (by decide)

end SmartLamp

namespace SmartLamp

/-- C9: the invariant `timeoutActive = true → currentTimeout > 0` holds in
the boot state and is preserved by every operation: the page handlers, the
API handlers, the status handler, the timeout handler with any argument,
and one tick of either control loop. -/
theorem C9_active_implies_positive_duration (t0 now : Nat) (s : DeviceState)
    (h : TimerInv s) (arg : Option (List Char)) :
    TimerInv (initialState t0) ∧
    TimerInv (handleOn s).1 ∧
    TimerInv (handleOff s).1 ∧
    TimerInv (handleOnApi s now).1 ∧
    TimerInv (handleOffApi s now).1 ∧
    TimerInv (handleStatus s now).1 ∧
    TimerInv (handleTimeout s arg now).1 ∧
    TimerInv (loopTick s now).1 ∧
    TimerInv (loopTickOpt s now).1 := by
  refine ⟨?_, ?_, ?_, ?_, ?_, ?_, ?_, ?_, ?_⟩
  · intro hx
    simp [initialState] at hx
  · exact h
  · intro hx
    simp [handleOff] at hx
  · exact h
  · intro hx
    simp [handleOffApi] at hx
  · exact h
  · cases arg with
    | none => exact h
    | some cs =>
      simp only [handleTimeout, handleTimeoutParsed]
      split
      · next hc =>
        cases hl : s.lampOn <;> intro _ <;> simp [hl] <;> omega
      · intro hx
        cases hx
  · simp only [loopTick, expiryStep, overrideStep]
    split
    · split
      · intro hx; cases hx
      · intro hx; cases hx
    · split
      · intro hx; cases hx
      · exact h
  · simp only [loopTickOpt, expiryStep, overrideStep]
    split <;> split <;> split <;> intro hx <;> simp_all [TimerInv]

end SmartLamp

namespace SmartLamp

/-- C9 witness: the theorem applied at the boot state, clock 5, no
argument. -/
theorem C9_active_implies_positive_duration_witness :
    TimerInv (handleOn (initialState 0)).1 ∧ TimerInv (loopTick (initialState 0) 5).1 :=
  ⟨(C9_active_implies_positive_duration 0 5 (initialState 0) (by decide) none).2.1,
   (C9_active_implies_positive_duration 0 5 (initialState 0) (by decide) none).2.2.2.2.2.2.2.1⟩

/-- Helper: a duration within the firmware's 720-minute clamp does not wrap
when converted to milliseconds on `unsigned long`. -/
theorem duration_ms_lt_W {d : Nat} (h : d ≤ 720) : (d * 60000) % W = d * 60000 :=
  Nat.mod_eq_of_lt (by simp only [W]; omega)

/-- C2: with the duration inside the firmware's clamp, one control-loop
tick realises exactly the lamp-by-timer transition table: active timer,
lamp on, budget elapsed turns the lamp off and deactivates the timer (the
only row that changes the lamp); active timer with the lamp off only
deactivates the timer; every other combination changes nothing.  The
optimized loop produces the same state up to its safety-check cadence
marker. -/
theorem C2_tick_transition_table (s : DeviceState) (now : Nat)
    (h720 : s.currentTimeout ≤ 720) :
    (loopTick s now).1 = specTickTable s now ∧
    ((loopTickOpt s now).1 = specTickTable s now ∨
     (loopTickOpt s now).1 = { specTickTable s now with lastSafetyCheck := now % W }) := by
  obtain ⟨lamp, relay, ct, act, ts, mst, lsc⟩ := s
  have hmod : (ct * 60000) % W = ct * 60000 := duration_ms_lt_W h720
  cases act <;> cases lamp <;>
    by_cases hexp : ct * 60000 ≤ sub32 now ts <;>
    by_cases hcad : SAFETY_CHECK_INTERVAL ≤ sub32 now lsc <;>
    simp [loopTick, loopTickOpt, expiryStep, overrideStep, specTickTable, hmod, hexp, hcad]

/-- C2 witness: the theorem applied to a state whose 1-minute timer has
elapsed at clock reading 60000. -/
theorem C2_tick_transition_table_witness :
    (loopTick
      { lampOn := true, relayState := true, currentTimeout := 1,
        timeoutActive := true, timeoutStart := 0, moduleStartTime := 0,
        lastSafetyCheck := 0 } 60000).1 =
    specTickTable
      { lampOn := true, relayState := true, currentTimeout := 1,
        timeoutActive := true, timeoutStart := 0, moduleStartTime := 0,
        lastSafetyCheck := 0 } 60000 :=
  (C2_tick_transition_table _ 60000 (by decide)).1

end SmartLamp

namespace SmartLamp

/-- C3 counterexample: the restart condition measures uptime since boot,
not how long the lamp has been off.  Boot at clock 0, turn the lamp on,
turn it off manually one minute before the 12-hour uptime mark (so the
lamp has been off for only 60000 ms); the tick at clock 43200000 still
fires the safety restart, refuting the reading that a restart happens only
after the lamp has been off for at least 12 hours. -/
theorem C3_counterexample :
    (handleOn (initialState 0)).1.lampOn = true ∧
    (loopTick (handleOff (handleOn (initialState 0)).1).1 43200000).2 = true := by
  decide

/-- C3 (amended): the recommended loop fires the safety restart exactly
when the lamp is off (after the tick's expiry and override steps) and at
least 12 hours of uptime have elapsed since boot; it never fires while the
lamp is on; the optimized loop's sub-cadenced check fires only when the
recommended check would, under the same condition. -/
theorem C3_safety_restart_condition (s : DeviceState) (now : Nat) :
    ((loopTick s now).2 = true ↔
      ((loopTick s now).1.lampOn = false ∧
       SAFETY_REBOOT_INTERVAL ≤ sub32 now s.moduleStartTime)) ∧
    ((loopTick s now).1.lampOn = true → (loopTick s now).2 = false) ∧
    ((loopTickOpt s now).2 = true → (loopTick s now).2 = true) ∧
    ((loopTickOpt s now).2 = true →
      ((loopTickOpt s now).1.lampOn = false ∧
       SAFETY_REBOOT_INTERVAL ≤ sub32 now s.moduleStartTime)) := by
  obtain ⟨lamp, relay, ct, act, ts, mst, lsc⟩ := s
  cases act <;> cases lamp <;>
    by_cases hexp : (ct * 60000) % W ≤ sub32 now ts <;>
    by_cases hcad : SAFETY_CHECK_INTERVAL ≤ sub32 now lsc <;>
    by_cases hsaf : SAFETY_REBOOT_INTERVAL ≤ sub32 now mst <;>
    simp [loopTick, loopTickOpt, expiryStep, overrideStep, safetyCondition,
          hexp, hcad, hsaf]

/-- C3 witness: at the boot state the tick at uptime exactly 12 hours
fires the restart (the lamp is off since boot). -/
theorem C3_safety_restart_condition_witness :
    (loopTick (initialState 0) 43200000).2 = true :=
  (C3_safety_restart_condition (initialState 0) 43200000).1.mpr
    ⟨by decide, by decide⟩

end SmartLamp

namespace SmartLamp

/-- C4 counterexample: a present but non-numeric `minutes` argument is not
a no-op.  Arduino `String::toInt` parses it to 0 and the handler's 0
branch cancels a running timer: with a 5-minute timer active, requesting
`/timeout?minutes=x` clears the active flag, changing the state. -/
theorem C4_counterexample :
    (handleTimeout
      { lampOn := true, relayState := true, currentTimeout := 5,
        timeoutActive := true, timeoutStart := 0, moduleStartTime := 0,
        lastSafetyCheck := 0 }
      (some ['x']) 1000).1 ≠
      { lampOn := true, relayState := true, currentTimeout := 5,
        timeoutActive := true, timeoutStart := 0, moduleStartTime := 0,
        lastSafetyCheck := 0 } ∧
    (handleTimeout
      { lampOn := true, relayState := true, currentTimeout := 5,
        timeoutActive := true, timeoutStart := 0, moduleStartTime := 0,
        lastSafetyCheck := 0 }
      (some ['x']) 1000).1.timeoutActive = false := by
  decide

/-- C4 (amended): a missing `minutes` argument on `/timeout` leaves the
state exactly as before; a present argument that parses to 0 — in
particular any non-numeric string, for which `atol` returns 0 — runs the
timer-disable branch, clearing the active flag and stored duration while
leaving the lamp and relay output untouched; in both cases the response is
the normal redirect, never an error. -/
theorem C4_timeout_missing_or_malformed (s : DeviceState) (now : Nat)
    (cs : List Char) (h : atol cs = 0) :
    (handleTimeout s none now).1 = s ∧
    (handleTimeout s none now).2 = HttpAction.redirect ∧
    (handleTimeout s (some cs) now).1 = cancelTimer s ∧
    (handleTimeout s (some cs) now).2 = HttpAction.redirect ∧
    (cancelTimer s).lampOn = s.lampOn ∧
    (cancelTimer s).relayState = s.relayState := by
  refine ⟨rfl, rfl, ?_, rfl, rfl, rfl⟩
  simp only [handleTimeout]
  exact timeoutParsed_eq_cancel s (atol cs) now (by rw [h]; rfl)

/-- C4 witness: the theorem applied to the boot state and the non-numeric
argument string consisting of the single character x. -/
theorem C4_timeout_missing_or_malformed_witness :
    atol ['x'] = 0 ∧
    (handleTimeout (initialState 3) (some ['x']) 9).1 = cancelTimer (initialState 3) :=
  ⟨by decide,
   (C4_timeout_missing_or_malformed (initialState 3) 9 ['x'] (by decide)).2.2.1⟩

/-- Helper: an `unsigned long` value below the sign boundary reinterprets
to itself as a `long`. -/
theorem toInt32_of_lt {n : Nat} (h : n < HALF) : toInt32 n = (n : Int) := by
  have hW : n % W = n := Nat.mod_eq_of_lt (by simp only [W]; simp only [HALF] at h; omega)
  simp only [toInt32, hW, if_pos h]

/-- Helper: a signed result already inside the 32-bit range is unchanged by
the two's-complement wrap. -/
theorem wrap32_of_bounds {i : Int}
    (h1 : -(HALF : Int) ≤ i) (h2 : i < (HALF : Int)) : wrap32 i = i := by
  simp only [HALF] at h1 h2
  simp only [wrap32, W, HALF]
  split <;> omega

end SmartLamp

namespace SmartLamp

/-- C5 counterexample: with a 1-minute timer whose 32-bit elapsed value is
4294967295 ms (for instance after the millis counter wraps: start 1, read
0), the signed intermediate reinterprets elapsed as -1, so the code
reports 60 remaining seconds, while the claimed formula
floor(max(0, duration*60000 - elapsed)/1000) yields 0. -/
theorem C5_counterexample :
    (statusOf
      { lampOn := true, relayState := true, currentTimeout := 1,
        timeoutActive := true, timeoutStart := 1, moduleStartTime := 0,
        lastSafetyCheck := 0 } 0).remainingSeconds = 60 ∧
    specRemainingSeconds 1 (sub32 0 1) = 0 := by
  decide

/-- C5 (amended): `remainingSeconds` is 0 whenever the timer is inactive or
the lamp is off; when the timer is active and the lamp on, provided the
stored duration is within the 720-minute clamp and the 32-bit elapsed
value is below 2^31, it equals floor(max(0, duration*60000 - elapsed) /
1000), the signed intermediate saturating at 0 instead of wrapping to a
huge unsigned value. -/
theorem C5_remaining_seconds (s : DeviceState) (now : Nat) :
    ((s.timeoutActive = false ∨ s.lampOn = false) →
      (statusOf s now).remainingSeconds = 0) ∧
    (s.timeoutActive = true → s.lampOn = true → s.currentTimeout ≤ 720 →
      sub32 now s.timeoutStart < HALF →
      (statusOf s now).remainingSeconds =
        specRemainingSeconds s.currentTimeout (sub32 now s.timeoutStart)) := by
  constructor
  · rintro (h | h) <;> simp [statusOf, h]
  · intro hact hon hd he
    have hmod := duration_ms_lt_W hd
    have hdlt : s.currentTimeout * 60000 < HALF := by
      simp only [HALF]
      omega
    simp only [statusOf, calculateRemainingSeconds, hact, hon, Bool.and_self, if_true,
               Bool.true_eq_false, if_false, hmod, toInt32_of_lt hdlt, toInt32_of_lt he]
    rw [wrap32_of_bounds (by simp only [HALF] at hdlt he ⊢; omega)
          (by simp only [HALF] at hdlt he ⊢; omega)]
    simp only [specRemainingSeconds]
    split_ifs <;> omega

/-- C5 witness: the theorem applied to a running 1-minute timer read
30000 ms after its start, reporting 30 remaining seconds on both sides. -/
theorem C5_remaining_seconds_witness :
    (statusOf
      { lampOn := true, relayState := true, currentTimeout := 1,
        timeoutActive := true, timeoutStart := 0, moduleStartTime := 0,
        lastSafetyCheck := 0 } 30000).remainingSeconds =
    specRemainingSeconds 1 (sub32 30000 0) :=
  (C5_remaining_seconds _ 30000).2 rfl rfl (by decide) (by decide)

end SmartLamp
